import Mathlib

/-!
A shallow embedding of the wireguard-go bootstrap orchestrator (main.go)
and its leveled logger (package device, logger source file), together with
theorems about the lifecycle behavior: resource resolution, daemonization,
the configuration accept loop, and ordered shutdown.

External OS effects (environment variables, tunnel creation, descriptor
syscalls, process relaunch, the first termination event) are supplied by an
oracle structure named World; the embedded main produces a trace of the
effectful actions it performs plus its exit code.
-/

namespace WireguardGo

/-! ### Leveled logger (package device) -/

-- Log levels for use with NewLogger (iota: 0, 1, 2).
def LogLevelSilent : Nat := 0
def LogLevelError : Nat := 1
def LogLevelVerbose : Nat := 2

/-- A logger sink: either a discarding no-op or an active formatting writer
carrying its header (severity tag, separator, instance label). The real
writer also stamps date and time, which are outside the embedding. -/
inductive Sink where
  | discard : Sink
  | active (header : String) : Sink
deriving DecidableEq

/-- Function for use in Logger for discarding logged lines. -/
def DiscardLogf : Sink := Sink.discard

/-- The lines a sink emits for one logging call: none for the discard sink,
one headed line for an active sink. -/
def Sink.emit : Sink → String → List String
  | Sink.discard, _ => []
  | Sink.active header, msg => [header ++ msg]

def Sink.isActive : Sink → Bool
  | Sink.discard => false
  | Sink.active _ => true

/-- A Logger provides logging for a Device: a verbose sink and an error sink. -/
structure Logger where
  Verbosef : Sink
  Errorf : Sink
deriving DecidableEq

/-- NewLogger constructs a Logger logging at the given level and above:
both sinks start as DiscardLogf, and each is upgraded to an active writer
when the level reaches its severity. -/
def NewLogger (level : Nat) (prepend : String) : Logger :=
  let logf : String → Sink := fun tag => Sink.active (tag ++ ": " ++ prepend)
  let base : Logger := { Verbosef := DiscardLogf, Errorf := DiscardLogf }
  let withVerbose : Logger :=
    if LogLevelVerbose ≤ level then { base with Verbosef := logf "DEBUG" } else base
  if LogLevelError ≤ level then { withVerbose with Errorf := logf "ERROR" } else withVerbose

/-! ### Constants of main.go -/

def ExitSetupSuccess : Nat := 0
def ExitSetupFailed : Nat := 1

-- device.DefaultMTU, an external constant; its value is irrelevant here.
def DefaultMTU : Nat := 1420

/-- The log-level selector of main.go: switch on the LOG_LEVEL environment
value, falling through to the error level. -/
def getLogLevel (envLogLevel : String) : Nat :=
  if envLogLevel = "verbose" ∨ envLogLevel = "debug" then LogLevelVerbose
  else if envLogLevel = "error" then LogLevelError
  else if envLogLevel = "silent" then LogLevelSilent
  else LogLevelError

/-- strconv.ParseUint(s, 10, 32): a non-empty all-decimal-digit string whose
value fits in 32 bits; anything else is a parse error. -/
def parseUint32 (s : String) : Option Nat :=
  let cs := s.toList
  if cs.isEmpty then none
  else if cs.all Char.isDigit then
    let n := cs.foldl (fun a c => a * 10 + (c.toNat - 48)) 0
    if n < 4294967296 then some n else none
  else none

/-! ### Oracle world and action traces -/

/-- The outcome of creating or adopting a tunnel device: the device carries
the result of reading back its OS-assigned name (tdev.Name()). -/
structure TunDev where
  nameResult : Except String String

/-- The three one-shot termination-event sources raced by the select. -/
inductive TermEvent where
  | signal : TermEvent
  | acceptError : TermEvent
  | engineFatal : TermEvent
deriving DecidableEq

/-- Standard-stream redirection target for the relaunched child. -/
inductive StdTarget where
  | devNull : StdTarget
  | parentStdout : StdTarget
  | parentStderr : StdTarget
deriving DecidableEq

/-- The three standard-stream slots of the child process attributes. -/
structure StdFiles where
  stdinT : StdTarget
  stdoutT : StdTarget
  stderrT : StdTarget
deriving DecidableEq

/-- The environment entries the daemonizer appends for the child (later
entries override any inherited values of the same variables). -/
structure ChildEnv where
  tunFd : String
  uapiFd : String
  foregroundMarker : String
  logLevel : String
deriving DecidableEq

/-- Oracle for one execution of main: command-line arguments, the consumed
environment variables (Go getenv yields the empty string when unset), and
the outcome of each fallible external call, plus which termination-event
source fires first at steady state. -/
structure World where
  args : List String
  envTunFd : String
  envUapiFd : String
  envForeground : String
  envLogLevel : String
  createTUNResult : Except String TunDev
  setNonblockResult : Except String Unit
  createTUNFromFileResult : Except String TunDev
  uapiOpenResult : Except String Unit
  executableResult : Except String String
  startProcessResult : Except String Unit
  uapiListenResult : Except String Unit
  firstEvent : TermEvent

/-- The observable effectful actions main performs, in program order. -/
inductive Action where
  | printUsage : Action
  | printVersion : Action
  | createTUN (name : String) (mtu : Nat) : Action
  | setNonblock (fd : Nat) : Action
  | newFile (fd : Nat) : Action
  | createTUNFromFile (fd : Nat) : Action
  | uapiOpen (name : String) : Action
  | buildChildFiles (files : StdFiles) : Action
  | startProcess (env : ChildEnv) : Action
  | newDevice : Action
  | uapiListen (name : String) : Action
  | eventReceived (ev : TermEvent) : Action
  | uapiClose : Action
  | deviceClose : Action
deriving DecidableEq

/-- The result of one run of main: the trace of actions, the process exit
code, and the instance label the logger was constructed with (none when
main returned before constructing the logger). -/
structure MainResult where
  trace : List Action
  exitCode : Nat
  loggerPrepend : Option String
deriving DecidableEq

/-! ### Resource Resolver (the two closures of main.go) -/

/-- The tunnel closure of main.go: with no WG_TUN_FD, create a fresh TUN
named after the interface name; otherwise parse the descriptor, mark it
non-blocking, wrap it as a file and build the device from it. -/
def tunResolver (interfaceName : String) (w : World) :
    Except String TunDev × List Action :=
  if w.envTunFd = "" then
    (w.createTUNResult, [Action.createTUN interfaceName DefaultMTU])
  else
    match parseUint32 w.envTunFd with
    | none => (Except.error "invalid WG_TUN_FD", [])
    | some fd =>
      match w.setNonblockResult with
      | Except.error e => (Except.error e, [Action.setNonblock fd])
      | Except.ok _ =>
        (w.createTUNFromFileResult,
          [Action.setNonblock fd, Action.newFile fd, Action.createTUNFromFile fd])

/-- The UAPI closure of main.go: with no WG_UAPI_FD, open (create and bind)
the UAPI socket file by interface name; otherwise parse the descriptor and
wrap it as a file directly. -/
def uapiResolver (interfaceName : String) (w : World) :
    Except String Unit × List Action :=
  if w.envUapiFd = "" then
    (w.uapiOpenResult, [Action.uapiOpen interfaceName])
  else
    match parseUint32 w.envUapiFd with
    | none => (Except.error "invalid WG_UAPI_FD", [])
    | some fd => (Except.ok (), [Action.newFile fd])

/-- The name readback of main.go: when the device was obtained and its
Name() call succeeds, the OS-assigned name replaces the requested one;
any failure leaves the requested name in place. -/
def resolveName (requested : String) (r : Except String TunDev) : String :=
  match r with
  | Except.ok dev =>
    match dev.nameResult with
    | Except.ok realName => realName
    | Except.error _ => requested
  | Except.error _ => requested

/-! ### Daemonizer -/

/-- The child standard-stream slots built by the daemonizer: stdin from the
null device always; stdout and stderr from the parent streams when
LOG_LEVEL is set non-empty and the resolved level is not silent, else from
the null device. -/
def daemonizeFiles (envLogLevel : String) (logLevel : Nat) : StdFiles :=
  if envLogLevel ≠ "" ∧ logLevel ≠ LogLevelSilent then
    { stdinT := StdTarget.devNull, stdoutT := StdTarget.parentStdout,
      stderrT := StdTarget.parentStderr }
  else
    { stdinT := StdTarget.devNull, stdoutT := StdTarget.devNull,
      stderrT := StdTarget.devNull }

/-- The environment entries appended for the relaunched child: the tunnel
handle at slot 3, the UAPI handle at slot 4, the foreground-override marker
set to 1; LOG_LEVEL passes through from the parent environment. -/
def daemonizeEnv (w : World) : ChildEnv :=
  { tunFd := "3", uapiFd := "4", foregroundMarker := "1", logLevel := w.envLogLevel }

/-! ### Command line and foreground decision -/

/-- The version fast path: exactly one argument after the program name and
it is the version flag. -/
def isVersionInvocation (args : List String) : Bool :=
  match args with
  | [_, a] => a == "--version"
  | _ => false

/-- The argument switch of main.go: two os.Args entries mean a bare
interface name (foreground flag off); three mean the explicit foreground
flag followed by the interface name; every other shape prints usage. -/
def parseCmdline (args : List String) : Option (Bool × String) :=
  match args with
  | [_, a1] =>
    if a1 = "-f" ∨ a1 = "--foreground" then none else some (false, a1)
  | [_, a1, a2] =>
    if a1 = "-f" ∨ a1 = "--foreground" then some (true, a2) else none
  | _ => none

/-- Foreground is forced by the explicit flag, else inherited from the
foreground-override environment marker being exactly the string 1. -/
def foregroundDecision (flagForeground : Bool) (marker : String) : Bool :=
  if flagForeground then true else marker == "1"

/-! ### Configuration accept loop (the goroutine of main.go) -/

/-- The accept loop, run over the stream of accept outcomes the listener
will yield: each accepted connection is dispatched to exactly one handler
goroutine; the first accept error is sent once to the error channel and the
loop returns, consuming nothing further. Result: handler connections in
dispatch order, and the errors reported to the coordinator. -/
def acceptLoop : List (Except String Nat) → List Nat × List String
  | [] => ([], [])
  | Except.ok c :: rest =>
    let r := acceptLoop rest
    (c :: r.1, r.2)
  | Except.error e :: _ => ([], [e])

/-- Whether one accept outcome is a successful accept. -/
def isOkAccept : Except String Nat → Bool
  | Except.ok _ => true
  | Except.error _ => false

/-- The successfully accepted connections of a stream, in order. -/
def oksOf (l : List (Except String Nat)) : List Nat :=
  l.filterMap fun x =>
    match x with
    | Except.ok c => some c
    | Except.error _ => none

/-! ### main -/

/-- Everything main.go does after the version check and argument switch:
resolve the tunnel (reading back the real name), build the logger label,
resolve the UAPI file, then either daemonize (build child files and env,
relaunch, parent returns 0) or run in place (bind the device, listen on
UAPI, wait for the first termination event, close the listener then the
device, return 0). Failures exit with the setup-failure code. -/
def runAfterParse (flagForeground : Bool) (requestedName : String) (w : World) :
    MainResult :=
  let foreground := foregroundDecision flagForeground w.envForeground
  let logLevel := getLogLevel w.envLogLevel
  let tr := tunResolver requestedName w
  let interfaceName := resolveName requestedName tr.1
  let prepend := "(" ++ interfaceName ++ ") "
  match tr.1 with
  | Except.error _ =>
    { trace := tr.2, exitCode := ExitSetupFailed, loggerPrepend := some prepend }
  | Except.ok _ =>
    let ur := uapiResolver interfaceName w
    match ur.1 with
    | Except.error _ =>
      { trace := tr.2 ++ ur.2, exitCode := ExitSetupFailed,
        loggerPrepend := some prepend }
    | Except.ok _ =>
      if foreground then
        match w.uapiListenResult with
        | Except.error _ =>
          { trace := tr.2 ++ ur.2 ++ [Action.newDevice, Action.uapiListen interfaceName],
            exitCode := ExitSetupFailed, loggerPrepend := some prepend }
        | Except.ok _ =>
          { trace := tr.2 ++ ur.2 ++
              [Action.newDevice, Action.uapiListen interfaceName,
               Action.eventReceived w.firstEvent, Action.uapiClose, Action.deviceClose],
            exitCode := ExitSetupSuccess, loggerPrepend := some prepend }
      else
        let files := daemonizeFiles w.envLogLevel logLevel
        let childEnv := daemonizeEnv w
        match w.executableResult with
        | Except.error _ =>
          { trace := tr.2 ++ ur.2 ++ [Action.buildChildFiles files],
            exitCode := ExitSetupFailed, loggerPrepend := some prepend }
        | Except.ok _ =>
          match w.startProcessResult with
          | Except.error _ =>
            { trace := tr.2 ++ ur.2 ++
                [Action.buildChildFiles files, Action.startProcess childEnv],
              exitCode := ExitSetupFailed, loggerPrepend := some prepend }
          | Except.ok _ =>
            { trace := tr.2 ++ ur.2 ++
                [Action.buildChildFiles files, Action.startProcess childEnv],
              exitCode := ExitSetupSuccess, loggerPrepend := some prepend }

/-- func main: the version fast path, the argument switch (usage on a
mismatch, returning success), then the full lifecycle. -/
def runMain (w : World) : MainResult :=
  if isVersionInvocation w.args then
    { trace := [Action.printVersion], exitCode := ExitSetupSuccess,
      loggerPrepend := none }
  else
    match parseCmdline w.args with
    | none =>
      { trace := [Action.printUsage], exitCode := ExitSetupSuccess,
        loggerPrepend := none }
    | some (flagForeground, requestedName) => runAfterParse flagForeground requestedName w

/-! ### Concrete worlds used to instantiate the theorems -/

/-- A fully successful foreground run: fresh tunnel and socket, no
inherited descriptors, terminated by a signal. -/
def okW : World :=
  { args := ["wireguard-go", "-f", "wg0"]
    envTunFd := ""
    envUapiFd := ""
    envForeground := ""
    envLogLevel := ""
    createTUNResult := Except.ok { nameResult := Except.ok "wg0" }
    setNonblockResult := Except.ok ()
    createTUNFromFileResult := Except.ok { nameResult := Except.ok "wg0" }
    uapiOpenResult := Except.ok ()
    executableResult := Except.ok "/usr/bin/wireguard-go"
    startProcessResult := Except.ok ()
    uapiListenResult := Except.ok ()
    firstEvent := TermEvent.signal }

/-- A child-style run adopting both inherited descriptors with the
foreground marker set. -/
def childW : World :=
  { okW with
    args := ["wireguard-go", "wg0"]
    envTunFd := "3"
    envUapiFd := "4"
    envForeground := "1" }

/-- A run whose inherited tunnel-descriptor string is malformed. -/
def badTunFdW : World :=
  { okW with envTunFd := "abc" }

/-- A run whose inherited UAPI-descriptor string is malformed. -/
def badUapiFdW : World :=
  { okW with envUapiFd := "4x" }

/-- A fresh-tunnel run where the OS renames the interface. -/
def renamedW : World :=
  { okW with
    args := ["wireguard-go", "wg0"]
    envForeground := "1"
    createTUNResult := Except.ok { nameResult := Except.ok "utun5" } }

/-- A fresh-tunnel run where reading back the assigned name fails. -/
def nameFailW : World :=
  { okW with
    createTUNResult := Except.ok { nameResult := Except.error "bad ioctl" } }

/-! ### Helper lemmas -/

theorem tunResolver_mem (n : String) (w : World) (a : Action)
    (h : a ∈ (tunResolver n w).2) :
    a = Action.createTUN n DefaultMTU ∨
      ∃ fd, a = Action.setNonblock fd ∨ a = Action.newFile fd ∨
        a = Action.createTUNFromFile fd := by
  by_cases he : w.envTunFd = ""
  · simp only [tunResolver, if_pos he, List.mem_singleton] at h
    exact Or.inl h
  · cases hp : parseUint32 w.envTunFd with
    | none => simp [tunResolver, if_neg he, hp] at h
    | some fd =>
      cases hs : w.setNonblockResult with
      | error e =>
        simp only [tunResolver, if_neg he, hp, hs, List.mem_singleton] at h
        exact Or.inr ⟨fd, Or.inl h⟩
      | ok u =>
        simp only [tunResolver, if_neg he, hp, hs, List.mem_cons,
          List.not_mem_nil, or_false] at h
        rcases h with h | h | h
        · exact Or.inr ⟨fd, Or.inl h⟩
        · exact Or.inr ⟨fd, Or.inr (Or.inl h)⟩
        · exact Or.inr ⟨fd, Or.inr (Or.inr h)⟩

theorem uapiResolver_mem (n : String) (w : World) (a : Action)
    (h : a ∈ (uapiResolver n w).2) :
    a = Action.uapiOpen n ∨ ∃ fd, a = Action.newFile fd := by
  by_cases he : w.envUapiFd = ""
  · simp only [uapiResolver, if_pos he, List.mem_singleton] at h
    exact Or.inl h
  · cases hp : parseUint32 w.envUapiFd with
    | none => simp [uapiResolver, if_neg he, hp] at h
    | some fd =>
      simp only [uapiResolver, if_neg he, hp, List.mem_singleton] at h
      exact Or.inr ⟨fd, h⟩

theorem tun_no_startProcess (n : String) (w : World) (e : ChildEnv) :
    Action.startProcess e ∉ (tunResolver n w).2 := by
  intro h
  rcases tunResolver_mem n w _ h with h1 | ⟨fd, h1 | h1 | h1⟩ <;> simp at h1

theorem uapi_no_startProcess (n : String) (w : World) (e : ChildEnv) :
    Action.startProcess e ∉ (uapiResolver n w).2 := by
  intro h
  rcases uapiResolver_mem n w _ h with h1 | ⟨fd, h1⟩ <;> simp at h1

theorem tun_no_uapiClose (n : String) (w : World) :
    Action.uapiClose ∉ (tunResolver n w).2 := by
  intro h
  rcases tunResolver_mem n w _ h with h1 | ⟨fd, h1 | h1 | h1⟩ <;> simp at h1

theorem uapi_no_uapiClose (n : String) (w : World) :
    Action.uapiClose ∉ (uapiResolver n w).2 := by
  intro h
  rcases uapiResolver_mem n w _ h with h1 | ⟨fd, h1⟩ <;> simp at h1

theorem tun_no_deviceClose (n : String) (w : World) :
    Action.deviceClose ∉ (tunResolver n w).2 := by
  intro h
  rcases tunResolver_mem n w _ h with h1 | ⟨fd, h1 | h1 | h1⟩ <;> simp at h1

theorem uapi_no_deviceClose (n : String) (w : World) :
    Action.deviceClose ∉ (uapiResolver n w).2 := by
  intro h
  rcases uapiResolver_mem n w _ h with h1 | ⟨fd, h1⟩ <;> simp at h1

theorem tun_no_eventReceived (n : String) (w : World) (ev : TermEvent) :
    Action.eventReceived ev ∉ (tunResolver n w).2 := by
  intro h
  rcases tunResolver_mem n w _ h with h1 | ⟨fd, h1 | h1 | h1⟩ <;> simp at h1

theorem uapi_no_eventReceived (n : String) (w : World) (ev : TermEvent) :
    Action.eventReceived ev ∉ (uapiResolver n w).2 := by
  intro h
  rcases uapiResolver_mem n w _ h with h1 | ⟨fd, h1⟩ <;> simp at h1

theorem runMain_eq_afterParse (w : World) (f : Bool) (n : String)
    (hv : isVersionInvocation w.args = false)
    (hp : parseCmdline w.args = some (f, n)) :
    runMain w = runAfterParse f n w := by
  unfold runMain
  rw [hv, hp]
  rfl

theorem runAfterParse_foreground_ok (f : Bool) (n : String) (w : World) (tdev : TunDev)
    (hfg : foregroundDecision f w.envForeground = true)
    (ht : (tunResolver n w).1 = Except.ok tdev)
    (hu : (uapiResolver (resolveName n (Except.ok tdev)) w).1 = Except.ok ())
    (hl : w.uapiListenResult = Except.ok ()) :
    runAfterParse f n w =
      { trace := (tunResolver n w).2 ++
          (uapiResolver (resolveName n (Except.ok tdev)) w).2 ++
          [Action.newDevice, Action.uapiListen (resolveName n (Except.ok tdev)),
           Action.eventReceived w.firstEvent, Action.uapiClose, Action.deviceClose],
        exitCode := ExitSetupSuccess,
        loggerPrepend := some ("(" ++ resolveName n (Except.ok tdev) ++ ") ") } := by
  simp only [runAfterParse, ht, hu, hfg, hl, if_true]

theorem getLogLevel_silent_iff (e : String) :
    getLogLevel e = LogLevelSilent ↔ e = "silent" := by
  unfold getLogLevel LogLevelSilent LogLevelError LogLevelVerbose
  split_ifs with h1 h2 h3
  · rcases h1 with rfl | rfl <;> decide
  · subst h2; decide
  · subst h3; decide
  · exact iff_of_false (by decide) h3

/-! ### Claim theorems -/

/-- Claim C7: the log-level selector maps verbose and debug to the verbose
level, error to the error level, silent to the silent level, and every
other value, including the empty (unset) value, to the error level. -/
theorem c7_log_level_selector :
    getLogLevel "verbose" = LogLevelVerbose ∧
    getLogLevel "debug" = LogLevelVerbose ∧
    getLogLevel "error" = LogLevelError ∧
    getLogLevel "silent" = LogLevelSilent ∧
    getLogLevel "" = LogLevelError ∧
    ∀ s : String, s ≠ "verbose" → s ≠ "debug" → s ≠ "error" → s ≠ "silent" →
      getLogLevel s = LogLevelError := by
  refine ⟨by decide, by decide, by decide, by decide, by decide, ?_⟩
  intro s h1 h2 h3 h4
  unfold getLogLevel
  rw [if_neg (fun h => h.elim h1 h2), if_neg h3, if_neg h4]

/-- Witness for C7 at the unrecognized value info, which the code comment
would suggest is the default: it resolves to the error level. -/
theorem c7_log_level_selector_witness : getLogLevel "info" = LogLevelError :=
  c7_log_level_selector.2.2.2.2.2 "info" (by decide) (by decide) (by decide) (by decide)

/-- Claim C8: a logger built at the silent level has both sinks discarding;
at the error level only the error sink is active and it emits error-tagged
lines; at the verbose level both sinks are active; in general a sink is
active exactly when the configured level is at or above its severity, and
the discarding sink emits nothing. -/
theorem c8_sink_activity (level : Nat) (prepend msg : String) :
    ((NewLogger LogLevelSilent prepend).Verbosef.emit msg = [] ∧
     (NewLogger LogLevelSilent prepend).Errorf.emit msg = []) ∧
    ((NewLogger LogLevelError prepend).Verbosef.emit msg = [] ∧
     (NewLogger LogLevelError prepend).Errorf.emit msg =
       [("ERROR" ++ ": " ++ prepend) ++ msg]) ∧
    ((NewLogger LogLevelVerbose prepend).Verbosef.emit msg =
       [("DEBUG" ++ ": " ++ prepend) ++ msg] ∧
     (NewLogger LogLevelVerbose prepend).Errorf.emit msg =
       [("ERROR" ++ ": " ++ prepend) ++ msg]) ∧
    (NewLogger level prepend).Verbosef.isActive = decide (LogLevelVerbose ≤ level) ∧
    (NewLogger level prepend).Errorf.isActive = decide (LogLevelError ≤ level) ∧
    DiscardLogf.emit msg = [] := by
  refine ⟨⟨rfl, rfl⟩, ⟨rfl, rfl⟩, ⟨rfl, rfl⟩, ?_, ?_, rfl⟩
  · simp only [NewLogger]
    by_cases h2 : LogLevelVerbose ≤ level
    · have h1 : LogLevelError ≤ level := le_trans (by decide) h2
      rw [if_pos h2, if_pos h1, decide_eq_true h2]
      rfl
    · rw [if_neg h2, decide_eq_false h2]
      by_cases h1 : LogLevelError ≤ level
      · rw [if_pos h1]
        rfl
      · rw [if_neg h1]
        rfl
  · simp only [NewLogger]
    by_cases h1 : LogLevelError ≤ level
    · rw [if_pos h1, decide_eq_true h1]
      rfl
    · have h2 : ¬LogLevelVerbose ≤ level := fun hh => h1 (le_trans (by decide) hh)
      rw [if_neg h2, if_neg h1, decide_eq_false h1]
      rfl

/-- Counterexample for C3 as stated: the configuration-socket descriptor 4
parses successfully, yet the UAPI resolver wraps it directly and never
marks it non-blocking, so the same treatment does not apply to both
descriptors. -/
theorem c3_counterexample :
    parseUint32 "4" = some 4 ∧
    (uapiResolver "wg0" childW).2 = [Action.newFile 4] ∧
    Action.setNonblock 4 ∉ (uapiResolver "wg0" childW).2 := by decide

/-- Claim C3 (amended): for every inherited-descriptor identifier that
parses as an unsigned integer, the tunnel path marks the descriptor
non-blocking before wrapping it as a live handle, while the
configuration-socket path wraps the parsed descriptor directly without
marking it non-blocking. -/
theorem c3_amended_nonblock :
    (∀ (s : String) (fd : Nat) (n : String) (w : World),
      w.envTunFd = s → parseUint32 s = some fd →
      (∃ rest, (tunResolver n w).2 = Action.setNonblock fd :: rest) ∧
      (w.setNonblockResult = Except.ok () →
        (tunResolver n w).2 =
          [Action.setNonblock fd, Action.newFile fd, Action.createTUNFromFile fd])) ∧
    (∀ (s : String) (fd : Nat) (n : String) (w : World),
      w.envUapiFd = s → parseUint32 s = some fd →
      (uapiResolver n w).2 = [Action.newFile fd] ∧
      ∀ k, Action.setNonblock k ∉ (uapiResolver n w).2) := by
  constructor
  · intro s fd n w hs hp
    subst hs
    have hne : w.envTunFd ≠ "" := by
      intro h0
      rw [h0, show parseUint32 "" = none from by decide] at hp
      exact Option.noConfusion hp
    cases hnb : w.setNonblockResult with
    | error e =>
      constructor
      · exact ⟨[], by simp [tunResolver, if_neg hne, hp, hnb]⟩
      · intro hok
        exact Except.noConfusion hok
    | ok u =>
      constructor
      · exact ⟨[Action.newFile fd, Action.createTUNFromFile fd],
          by simp [tunResolver, if_neg hne, hp, hnb]⟩
      · intro _; simp [tunResolver, if_neg hne, hp, hnb]
  · intro s fd n w hs hp
    subst hs
    have hne : w.envUapiFd ≠ "" := by
      intro h0
      rw [h0, show parseUint32 "" = none from by decide] at hp
      exact Option.noConfusion hp
    constructor
    · simp [uapiResolver, if_neg hne, hp]
    · intro k
      simp [uapiResolver, if_neg hne, hp]

/-- Witness for the amended C3 at the descriptor strings 3 and 4 the
daemonizer itself passes to the child. -/
theorem c3_amended_nonblock_witness :
    (tunResolver "wg0" childW).2 =
      [Action.setNonblock 3, Action.newFile 3, Action.createTUNFromFile 3] ∧
    (uapiResolver "wg0" childW).2 = [Action.newFile 4] :=
  ⟨(c3_amended_nonblock.1 "3" 3 "wg0" childW rfl (by decide)).2 rfl,
   (c3_amended_nonblock.2 "4" 4 "wg0" childW rfl (by decide)).1⟩

/-- Counterexample for C4 as stated: with LOG_LEVEL set to error, verbose
logging is not requested, yet the relaunched child inherits the parent
standard output and standard error rather than a null sink. -/
theorem c4_counterexample :
    getLogLevel "error" ≠ LogLevelVerbose ∧
    (daemonizeFiles "error" (getLogLevel "error")).stdoutT = StdTarget.parentStdout ∧
    (daemonizeFiles "error" (getLogLevel "error")).stderrT = StdTarget.parentStderr := by
  decide

/-- Claim C4 (amended): the relaunched child always gets its standard input
from the null sink, and its standard output and standard error go to the
parent streams exactly when the log-level environment value is non-empty
and does not resolve to the silent level (equivalently, is neither unset
nor the value silent); otherwise they go to the null sink. -/
theorem c4_amended_child_streams (e : String) :
    (daemonizeFiles e (getLogLevel e)).stdinT = StdTarget.devNull ∧
    ((daemonizeFiles e (getLogLevel e)).stdoutT = StdTarget.parentStdout ↔
      (e ≠ "" ∧ e ≠ "silent")) ∧
    ((daemonizeFiles e (getLogLevel e)).stderrT = StdTarget.parentStderr ↔
      (e ≠ "" ∧ e ≠ "silent")) ∧
    ((e = "" ∨ e = "silent") →
      (daemonizeFiles e (getLogLevel e)).stdoutT = StdTarget.devNull ∧
      (daemonizeFiles e (getLogLevel e)).stderrT = StdTarget.devNull) := by
  by_cases h1 : e = ""
  · subst h1; decide
  · by_cases h2 : e = "silent"
    · subst h2; decide
    · simp [daemonizeFiles, getLogLevel_silent_iff, h1, h2]

/-- Witness for the amended C4 at a verbose and a silent configuration. -/
theorem c4_amended_child_streams_witness :
    (daemonizeFiles "verbose" (getLogLevel "verbose")).stdinT = StdTarget.devNull ∧
    (daemonizeFiles "silent" (getLogLevel "silent")).stdoutT = StdTarget.devNull ∧
    (daemonizeFiles "silent" (getLogLevel "silent")).stderrT = StdTarget.devNull :=
  ⟨(c4_amended_child_streams "verbose").1,
   ((c4_amended_child_streams "silent").2.2.2 (Or.inr rfl)).1,
   ((c4_amended_child_streams "silent").2.2.2 (Or.inr rfl)).2⟩

/-- Claim C9: over any stream of accept outcomes, the accept loop
dispatches exactly one handler per successful accept, in order; with no
failure it reports nothing, and handlers equal successful accepts in
number; on the first failure it reports that error exactly once and exits,
having dispatched exactly the connections accepted before the failure. -/
theorem c9_accept_dispatch :
    (∀ l : List (Except String Nat), (∀ x ∈ l, isOkAccept x = true) →
      acceptLoop l = (oksOf l, []) ∧ (oksOf l).length = l.length) ∧
    (∀ (pre : List (Except String Nat)) (e : String) (rest : List (Except String Nat)),
      (∀ x ∈ pre, isOkAccept x = true) →
      acceptLoop (pre ++ Except.error e :: rest) = (oksOf pre, [e]) ∧
      (oksOf pre).length = pre.length) := by
  constructor
  · intro l hl
    induction l with
    | nil => exact ⟨rfl, rfl⟩
    | cons x xs ih =>
      cases x with
      | error e =>
        have hx := hl (Except.error e) (List.mem_cons_self _ _)
        simp [isOkAccept] at hx
      | ok c =>
        have ihr := ih fun y hy => hl y (List.mem_cons_of_mem _ hy)
        constructor
        · simp [acceptLoop, oksOf, List.filterMap_cons, ihr.1]
        · simp only [oksOf, List.filterMap_cons, List.length_cons]
          simp only [oksOf] at ihr
          rw [ihr.2]
  · intro pre e rest hpre
    induction pre with
    | nil => exact ⟨rfl, rfl⟩
    | cons x xs ih =>
      cases x with
      | error e2 =>
        have hx := hpre (Except.error e2) (List.mem_cons_self _ _)
        simp [isOkAccept] at hx
      | ok c =>
        have ihr := ih fun y hy => hpre y (List.mem_cons_of_mem _ hy)
        constructor
        · simp [acceptLoop, oksOf, List.filterMap_cons, ihr.1]
        · simp only [oksOf, List.filterMap_cons, List.length_cons]
          simp only [oksOf] at ihr
          rw [ihr.2]

/-- Witness for C9 on a stream of two accepted connections followed by an
accept failure, and on an all-success stream. -/
theorem c9_accept_dispatch_witness :
    acceptLoop [Except.ok 1, Except.ok 2, Except.error "use of closed listener",
        Except.ok 9] = ([1, 2], ["use of closed listener"]) ∧
    acceptLoop [Except.ok 5] = ([5], []) :=
  ⟨(c9_accept_dispatch.2 [Except.ok 1, Except.ok 2] "use of closed listener"
      [Except.ok 9] (by decide)).1,
   (c9_accept_dispatch.1 [Except.ok 5] (by decide)).1⟩

theorem startProcess_cases (f : Bool) (n : String) (w : World) (e : ChildEnv)
    (h : Action.startProcess e ∈ (runAfterParse f n w).trace) :
    e = daemonizeEnv w ∧ foregroundDecision f w.envForeground = false := by
  cases ht : (tunResolver n w).1 with
  | error err =>
    simp only [runAfterParse, ht] at h
    exact absurd h (tun_no_startProcess n w e)
  | ok tdev =>
    cases hu : (uapiResolver (resolveName n (Except.ok tdev)) w).1 with
    | error err =>
      simp only [runAfterParse, ht, hu, List.mem_append] at h
      rcases h with h | h
      · exact absurd h (tun_no_startProcess n w e)
      · exact absurd h (uapi_no_startProcess _ w e)
    | ok u =>
      cases hfg : foregroundDecision f w.envForeground with
      | true =>
        cases hl : w.uapiListenResult with
        | error err =>
          simp [runAfterParse, ht, hu, hfg, hl] at h
          rcases h with h | h
          · exact absurd h (tun_no_startProcess n w e)
          · exact absurd h (uapi_no_startProcess _ w e)
        | ok v =>
          simp [runAfterParse, ht, hu, hfg, hl] at h
          rcases h with h | h
          · exact absurd h (tun_no_startProcess n w e)
          · exact absurd h (uapi_no_startProcess _ w e)
      | false =>
        cases hx : w.executableResult with
        | error err =>
          simp [runAfterParse, ht, hu, hfg, hx] at h
          rcases h with h | h
          · exact absurd h (tun_no_startProcess n w e)
          · exact absurd h (uapi_no_startProcess _ w e)
        | ok p =>
          cases hs : w.startProcessResult with
          | error err =>
            simp [runAfterParse, ht, hu, hfg, hx, hs] at h
            rcases h with h | h | h2
            · exact absurd h (tun_no_startProcess n w e)
            · exact absurd h (uapi_no_startProcess _ w e)
            · exact ⟨h2, rfl⟩
          | ok q =>
            simp [runAfterParse, ht, hu, hfg, hx, hs] at h
            rcases h with h | h | h2
            · exact absurd h (tun_no_startProcess n w e)
            · exact absurd h (uapi_no_startProcess _ w e)
            · exact ⟨h2, rfl⟩

/-- Claim C1: once the process is in the run-in-place state, the first
termination event (whichever of the three sources fires) is followed by
closing the configuration listener strictly before closing the engine,
each exactly once, and the run ends with the success exit code regardless
of the event source (the event source is unconstrained here). -/
theorem c1_ordered_shutdown (w : World) (flagForeground : Bool)
    (requestedName : String) (tdev : TunDev)
    (hv : isVersionInvocation w.args = false)
    (hp : parseCmdline w.args = some (flagForeground, requestedName))
    (hfg : foregroundDecision flagForeground w.envForeground = true)
    (ht : (tunResolver requestedName w).1 = Except.ok tdev)
    (hu : (uapiResolver (resolveName requestedName (Except.ok tdev)) w).1 = Except.ok ())
    (hl : w.uapiListenResult = Except.ok ()) :
    (∃ pre : List Action,
      (runMain w).trace =
        pre ++ [Action.eventReceived w.firstEvent, Action.uapiClose, Action.deviceClose] ∧
      Action.uapiClose ∉ pre ∧ Action.deviceClose ∉ pre ∧
      ∀ ev, Action.eventReceived ev ∉ pre) ∧
    (runMain w).exitCode = ExitSetupSuccess := by
  rw [runMain_eq_afterParse w flagForeground requestedName hv hp,
    runAfterParse_foreground_ok flagForeground requestedName w tdev hfg ht hu hl]
  refine ⟨⟨(tunResolver requestedName w).2 ++
      (uapiResolver (resolveName requestedName (Except.ok tdev)) w).2 ++
      [Action.newDevice, Action.uapiListen (resolveName requestedName (Except.ok tdev))],
      ?_, ?_, ?_, ?_⟩, rfl⟩
  · simp
  · intro h
    rcases List.mem_append.mp h with h2 | h2
    · rcases List.mem_append.mp h2 with h3 | h3
      · exact tun_no_uapiClose _ w h3
      · exact uapi_no_uapiClose _ w h3
    · simp at h2
  · intro h
    rcases List.mem_append.mp h with h2 | h2
    · rcases List.mem_append.mp h2 with h3 | h3
      · exact tun_no_deviceClose _ w h3
      · exact uapi_no_deviceClose _ w h3
    · simp at h2
  · intro ev h
    rcases List.mem_append.mp h with h2 | h2
    · rcases List.mem_append.mp h2 with h3 | h3
      · exact tun_no_eventReceived _ w ev h3
      · exact uapi_no_eventReceived _ w ev h3
    · simp at h2

/-- Witness for C1: the fully successful foreground run terminated by a
signal tears down listener-then-engine exactly once and exits 0. -/
theorem c1_ordered_shutdown_witness :
    (∃ pre : List Action,
      (runMain okW).trace =
        pre ++ [Action.eventReceived TermEvent.signal, Action.uapiClose,
          Action.deviceClose] ∧
      Action.uapiClose ∉ pre ∧ Action.deviceClose ∉ pre ∧
      ∀ ev, Action.eventReceived ev ∉ pre) ∧
    (runMain okW).exitCode = ExitSetupSuccess :=
  c1_ordered_shutdown okW true "wg0" { nameResult := Except.ok "wg0" }
    rfl rfl rfl rfl rfl rfl

/-- Claim C2: with the foreground-override marker set to 1 the process
never relaunches; the daemonizer always hands the child a marker of 1; any
relaunch that does happen carries a child environment whose marker is 1;
and the foreground decision is true under the marker regardless of the
explicit flag. -/
theorem c2_no_recursive_daemonize :
    (∀ (w : World) (e : ChildEnv), w.envForeground = "1" →
      Action.startProcess e ∉ (runMain w).trace) ∧
    (∀ w : World, (daemonizeEnv w).foregroundMarker = "1") ∧
    (∀ (w : World) (e : ChildEnv), Action.startProcess e ∈ (runMain w).trace →
      e.foregroundMarker = "1") ∧
    ∀ flagForeground : Bool, foregroundDecision flagForeground "1" = true := by
  have aux : ∀ (w : World) (e : ChildEnv), Action.startProcess e ∈ (runMain w).trace →
      e = daemonizeEnv w ∧
      ∃ (f : Bool) (n : String), parseCmdline w.args = some (f, n) ∧
        foregroundDecision f w.envForeground = false := by
    intro w e h
    cases hb : isVersionInvocation w.args with
    | true =>
      unfold runMain at h
      rw [hb] at h
      simp at h
    | false =>
      cases hp : parseCmdline w.args with
      | none =>
        unfold runMain at h
        rw [hb, hp] at h
        simp at h
      | some p =>
        obtain ⟨f, n⟩ := p
        rw [runMain_eq_afterParse w f n hb hp] at h
        have hc := startProcess_cases f n w e h
        exact ⟨hc.1, f, n, rfl, hc.2⟩
  refine ⟨?_, fun w => rfl, ?_, fun flagForeground => by cases flagForeground <;> decide⟩
  · intro w e hm h
    obtain ⟨-, f, n, -, hfg⟩ := aux w e h
    rw [hm] at hfg
    have htrue : foregroundDecision f "1" = true := by cases f <;> decide
    rw [htrue] at hfg
    exact Bool.noConfusion hfg
  · intro w e h
    obtain ⟨he, -, -, -, -⟩ := aux w e h
    rw [he]
    rfl

/-- Witness for C2: the child world with inherited descriptors and the
marker set performs no relaunch, and the daemonizer would set the marker. -/
theorem c2_no_recursive_daemonize_witness :
    Action.startProcess (daemonizeEnv childW) ∉ (runMain childW).trace ∧
    (daemonizeEnv childW).foregroundMarker = "1" :=
  ⟨c2_no_recursive_daemonize.1 childW (daemonizeEnv childW) rfl,
   c2_no_recursive_daemonize.2.1 childW⟩

/-- Claim C5: for a malformed inherited tunnel-descriptor string the run
exits with the failure code having performed no resource action at all;
for a malformed inherited configuration-socket-descriptor string (with the
tunnel created fresh) the run exits with the failure code having acquired
nothing from that descriptor (the only action is the fresh tunnel
creation). -/
theorem c5_malformed_fd (w : World) (flagForeground : Bool) (requestedName : String)
    (hv : isVersionInvocation w.args = false)
    (hp : parseCmdline w.args = some (flagForeground, requestedName)) :
    (w.envTunFd ≠ "" → parseUint32 w.envTunFd = none →
      (runMain w).exitCode = ExitSetupFailed ∧ (runMain w).trace = []) ∧
    (w.envTunFd = "" → w.envUapiFd ≠ "" → parseUint32 w.envUapiFd = none →
      (runMain w).exitCode = ExitSetupFailed ∧
      (runMain w).trace = [Action.createTUN requestedName DefaultMTU]) := by
  rw [runMain_eq_afterParse w flagForeground requestedName hv hp]
  constructor
  · intro h1 h2
    have htr : tunResolver requestedName w = (Except.error "invalid WG_TUN_FD", []) := by
      simp [tunResolver, if_neg h1, h2]
    constructor <;> simp [runAfterParse, htr]
  · intro h1 h2 h3
    have htr : tunResolver requestedName w =
        (w.createTUNResult, [Action.createTUN requestedName DefaultMTU]) := by
      simp [tunResolver, if_pos h1]
    cases hc : w.createTUNResult with
    | error err => constructor <;> simp [runAfterParse, htr, hc]
    | ok tdev =>
      have hur : uapiResolver (resolveName requestedName (Except.ok tdev)) w =
          (Except.error "invalid WG_UAPI_FD", []) := by
        simp [uapiResolver, if_neg h2, h3]
      constructor <;> simp [runAfterParse, htr, hc, hur]

/-- Witness for C5 at the malformed descriptor strings abc (tunnel) and
4x (configuration socket). -/
theorem c5_malformed_fd_witness :
    ((runMain badTunFdW).exitCode = ExitSetupFailed ∧ (runMain badTunFdW).trace = []) ∧
    ((runMain badUapiFdW).exitCode = ExitSetupFailed ∧
      (runMain badUapiFdW).trace = [Action.createTUN "wg0" DefaultMTU]) :=
  ⟨(c5_malformed_fd badTunFdW true "wg0" rfl rfl).1 (by decide) (by decide),
   (c5_malformed_fd badUapiFdW true "wg0" rfl rfl).2 rfl (by decide) (by decide)⟩

/-- Claim C6: with no inherited tunnel descriptor, the run creates a fresh
tunnel named after the requested name, and after a successful name
readback the OS-assigned actual name (not the requested one) is what the
logger instance label uses and what the configuration socket is bound
under. -/
theorem c6_fresh_tunnel (w : World) (flagForeground : Bool)
    (requestedName realName : String) (tdev : TunDev)
    (hv : isVersionInvocation w.args = false)
    (hp : parseCmdline w.args = some (flagForeground, requestedName))
    (htfd : w.envTunFd = "")
    (hc : w.createTUNResult = Except.ok tdev)
    (hn : tdev.nameResult = Except.ok realName)
    (hufd : w.envUapiFd = "") :
    Action.createTUN requestedName DefaultMTU ∈ (runMain w).trace ∧
    (runMain w).loggerPrepend = some ("(" ++ realName ++ ") ") ∧
    Action.uapiOpen realName ∈ (runMain w).trace := by
  rw [runMain_eq_afterParse w flagForeground requestedName hv hp]
  have htr : tunResolver requestedName w =
      (Except.ok tdev, [Action.createTUN requestedName DefaultMTU]) := by
    simp [tunResolver, if_pos htfd, hc]
  have hname : resolveName requestedName (Except.ok tdev) = realName := by
    simp [resolveName, hn]
  have hur : uapiResolver realName w = (w.uapiOpenResult, [Action.uapiOpen realName]) := by
    simp [uapiResolver, if_pos hufd]
  cases hu : w.uapiOpenResult with
  | error err =>
    refine ⟨?_, ?_, ?_⟩ <;> simp [runAfterParse, htr, hname, hur, hu]
  | ok u =>
    cases hfg : foregroundDecision flagForeground w.envForeground with
    | true =>
      cases hl : w.uapiListenResult with
      | error err =>
        refine ⟨?_, ?_, ?_⟩ <;> simp [runAfterParse, htr, hname, hur, hu, hfg, hl]
      | ok v =>
        refine ⟨?_, ?_, ?_⟩ <;> simp [runAfterParse, htr, hname, hur, hu, hfg, hl]
    | false =>
      cases hx : w.executableResult with
      | error err =>
        refine ⟨?_, ?_, ?_⟩ <;> simp [runAfterParse, htr, hname, hur, hu, hfg, hx]
      | ok p =>
        cases hs : w.startProcessResult with
        | error err =>
          refine ⟨?_, ?_, ?_⟩ <;> simp [runAfterParse, htr, hname, hur, hu, hfg, hx, hs]
        | ok q =>
          refine ⟨?_, ?_, ?_⟩ <;> simp [runAfterParse, htr, hname, hur, hu, hfg, hx, hs]

/-- Witness for C6: the OS renames wg0 to utun5 and the actual name is
used for the label and the socket binding. -/
theorem c6_fresh_tunnel_witness :
    Action.createTUN "wg0" DefaultMTU ∈ (runMain renamedW).trace ∧
    (runMain renamedW).loggerPrepend = some ("(" ++ "utun5" ++ ") ") ∧
    Action.uapiOpen "utun5" ∈ (runMain renamedW).trace :=
  c6_fresh_tunnel renamedW false "wg0" "utun5" { nameResult := Except.ok "utun5" }
    rfl rfl rfl rfl rfl rfl

/-- Claim C10: when the tunnel is created successfully but the name
readback fails, the failure is tolerated: the requested name is kept for
the logger label and the socket binding, and with the rest of the setup
succeeding in the foreground the run still ends with the success code. -/
theorem c10_name_readback_tolerated (w : World) (flagForeground : Bool)
    (requestedName msg : String) (tdev : TunDev)
    (hv : isVersionInvocation w.args = false)
    (hp : parseCmdline w.args = some (flagForeground, requestedName))
    (htfd : w.envTunFd = "")
    (hc : w.createTUNResult = Except.ok tdev)
    (hn : tdev.nameResult = Except.error msg)
    (hufd : w.envUapiFd = "") :
    (runMain w).loggerPrepend = some ("(" ++ requestedName ++ ") ") ∧
    Action.uapiOpen requestedName ∈ (runMain w).trace ∧
    (w.uapiOpenResult = Except.ok () →
      foregroundDecision flagForeground w.envForeground = true →
      w.uapiListenResult = Except.ok () →
      (runMain w).exitCode = ExitSetupSuccess) := by
  rw [runMain_eq_afterParse w flagForeground requestedName hv hp]
  have htr : tunResolver requestedName w =
      (Except.ok tdev, [Action.createTUN requestedName DefaultMTU]) := by
    simp [tunResolver, if_pos htfd, hc]
  have hname : resolveName requestedName (Except.ok tdev) = requestedName := by
    simp [resolveName, hn]
  have hur : uapiResolver requestedName w =
      (w.uapiOpenResult, [Action.uapiOpen requestedName]) := by
    simp [uapiResolver, if_pos hufd]
  have h12 : (runAfterParse flagForeground requestedName w).loggerPrepend =
      some ("(" ++ requestedName ++ ") ") ∧
      Action.uapiOpen requestedName ∈ (runAfterParse flagForeground requestedName w).trace := by
    cases hu : w.uapiOpenResult with
    | error err => constructor <;> simp [runAfterParse, htr, hname, hur, hu]
    | ok u =>
      cases hfg : foregroundDecision flagForeground w.envForeground with
      | true =>
        cases hl : w.uapiListenResult with
        | error err => constructor <;> simp [runAfterParse, htr, hname, hur, hu, hfg, hl]
        | ok v => constructor <;> simp [runAfterParse, htr, hname, hur, hu, hfg, hl]
      | false =>
        cases hx : w.executableResult with
        | error err => constructor <;> simp [runAfterParse, htr, hname, hur, hu, hfg, hx]
        | ok p =>
          cases hs : w.startProcessResult with
          | error err =>
            constructor <;> simp [runAfterParse, htr, hname, hur, hu, hfg, hx, hs]
          | ok q =>
            constructor <;> simp [runAfterParse, htr, hname, hur, hu, hfg, hx, hs]
  refine ⟨h12.1, h12.2, ?_⟩
  intro hu2 hfg2 hl2
  rw [runAfterParse_foreground_ok flagForeground requestedName w tdev hfg2
    (by rw [htr]) (by rw [hname, hur]; exact hu2) hl2]

/-- Witness for C10: the name readback fails with an ioctl error and the
run keeps the requested name and exits 0. -/
theorem c10_name_readback_tolerated_witness :
    (runMain nameFailW).loggerPrepend = some ("(" ++ "wg0" ++ ") ") ∧
    Action.uapiOpen "wg0" ∈ (runMain nameFailW).trace ∧
    (runMain nameFailW).exitCode = ExitSetupSuccess :=
  have h := c10_name_readback_tolerated nameFailW true "wg0" "bad ioctl"
    { nameResult := Except.error "bad ioctl" } rfl rfl rfl rfl rfl rfl
  ⟨h.1, h.2.1, h.2.2 rfl rfl rfl⟩

end WireguardGo
